import Mathlib

/-!
Shallow embedding of `drivers/video/backlight/rt8555-backlight.c`.

The driver controls an RT8555 LED backlight IC over an 8-bit-address /
8-bit-value register bus (regmap over i2c), with an optional enable GPIO.
We model:
  * the register map as a structure over the six registers the driver
    touches (`RegMap`);
  * the bus with fault injection: each regmap transaction consumes one
    entry of a fault schedule (`none` = success, `some e` = bus error `e`,
    with `e` an errno-like integer);
  * a recording trace of bus transactions and GPIO transitions (`Event`),
    so that ordering properties can be stated;
  * the three driver entry points `rt8555_bl_enable`,
    `rt8555_bl_update_status` (set_brightness) and
    `rt8555_bl_get_brightness`, plus the configuration computation of
    `rt8555_bl_probe`.
-/

namespace RT8555

/-! ### Constants from the source -/

def RT8555_MAX_BRIGHTNESS : Nat := 1023
def RT8555_DEFAULT_CURRENT_LIMIT : Nat := 0x92
def RT8555_DEFAULT_LED_DRIVER_HEADROOM : Nat := 0x00

def RT8555_REG_CFG0 : Nat := 0x00
def RT8555_REG_CFG1 : Nat := 0x01
def RT8555_REG_CFG8 : Nat := 0x08
def RT8555_REG_ILED_CURRENT_LIMIT : Nat := 0x02
def RT8555_REG_ILED1_LSB : Nat := 0x04
def RT8555_REG_ILED1_MSB : Nat := 0x05

/-- Mask BIT(0). -/
def RT8555_DIM_MODE_MASK : Nat := 0x01
/-- Mask BIT(1). -/
def RT8555_BRIGHTNESS_SOURCE_MASK : Nat := 0x02
/-- Mask GENMASK(3, 2). -/
def RT8555_CHANGE_DUTY_MASK : Nat := 0x0C
/-- Mask GENMASK(3, 2). -/
def RT8555_LED_DRIVER_HEADROOM_MASK : Nat := 0x0C
/-- Mask BIT(7). -/
def RT8555_MIX_26K_MASK : Nat := 0x80
/-- Mask BIT(7). -/
def RT8555_EN10BIT_MASK : Nat := 0x80

/-! ### Register map

The driver only ever addresses the six registers below (regmap config is
8-bit registers / 8-bit values), so the register map is modelled as a
structure with one `Nat` field per register; writes mask to 8 bits, as the
8-bit-value bus does. -/

structure RegMap where
  cfg0 : Nat
  cfg1 : Nat
  iledCurrentLimit : Nat
  iled1Lsb : Nat
  iled1Msb : Nat
  cfg8 : Nat
deriving DecidableEq, Repr

def RegMap.readReg (m : RegMap) (addr : Nat) : Nat :=
  if addr = RT8555_REG_CFG0 then m.cfg0
  else if addr = RT8555_REG_CFG1 then m.cfg1
  else if addr = RT8555_REG_ILED_CURRENT_LIMIT then m.iledCurrentLimit
  else if addr = RT8555_REG_ILED1_LSB then m.iled1Lsb
  else if addr = RT8555_REG_ILED1_MSB then m.iled1Msb
  else if addr = RT8555_REG_CFG8 then m.cfg8
  else 0

def RegMap.writeReg (m : RegMap) (addr v : Nat) : RegMap :=
  if addr = RT8555_REG_CFG0 then { m with cfg0 := v &&& 0xFF }
  else if addr = RT8555_REG_CFG1 then { m with cfg1 := v &&& 0xFF }
  else if addr = RT8555_REG_ILED_CURRENT_LIMIT then { m with iledCurrentLimit := v &&& 0xFF }
  else if addr = RT8555_REG_ILED1_LSB then { m with iled1Lsb := v &&& 0xFF }
  else if addr = RT8555_REG_ILED1_MSB then { m with iled1Msb := v &&& 0xFF }
  else if addr = RT8555_REG_CFG8 then { m with cfg8 := v &&& 0xFF }
  else m

/-! ### Bus events, system state, fault injection -/

/-- A recorded bus/GPIO event: register writes record the byte that
landed, register reads record the address, GPIO events record the driven
level. -/
inductive Event where
  | regWrite (addr v : Nat)
  | regRead (addr : Nat)
  | gpioSet (active : Bool)
deriving DecidableEq, Repr

/-- Full system state threaded through the driver functions.
`gpio = none` models `IS_ERR_OR_NULL(priv->enable)` (no enable line);
`gpio = some b` models an enable line whose last driven value is `b`
(`gpiod_get_value` reads it back). `faults` is the injection schedule:
each regmap transaction consumes its head (`some e` makes that
transaction fail with error `e`). `trace` records completed events in
order. -/
structure Sys where
  regs : RegMap
  gpio : Option Bool
  faults : List (Option Int)
  trace : List Event
deriving DecidableEq, Repr

def popFault (s : Sys) : Option Int × Sys :=
  match s.faults with
  | [] => (none, s)
  | f :: rest => (f, { s with faults := rest })

/-- Model of `gpiod_set_value(priv->enable, v)`; all call sites in the
source are guarded by `!IS_ERR_OR_NULL(priv->enable)`, we keep it a no-op
when no line exists. -/
def gpiodSetValue (s : Sys) (active : Bool) : Sys :=
  match s.gpio with
  | none => s
  | some _ => { s with gpio := some active, trace := s.trace ++ [Event.gpioSet active] }

/-- The register value produced by `regmap_update_bits`: replace only the
bits of `mask` with `v & mask`, preserving the rest (registers hold 8-bit
values, so clearing `mask` is `&&& (0xFF ^^^ mask)`). -/
def upd (mask v old : Nat) : Nat := (old &&& (0xFF ^^^ mask)) ||| (v &&& mask)

/-- Model of `regmap_update_bits(map, addr, mask, val)`: read-modify-write of one
register. One bus transaction; on a fault nothing is written. -/
def regmapUpdateBits (s : Sys) (addr mask v : Nat) : Sys × Option Int :=
  match popFault s with
  | (some e, s') => (s', some e)
  | (none, s') =>
    let newVal := upd mask v (s'.regs.readReg addr)
    ({ s' with regs := s'.regs.writeReg addr newVal,
               trace := s'.trace ++ [Event.regWrite addr newVal] }, none)

/-- Model of `regmap_write(map, addr, val)`. -/
def regmapWrite (s : Sys) (addr v : Nat) : Sys × Option Int :=
  match popFault s with
  | (some e, s') => (s', some e)
  | (none, s') =>
    ({ s' with regs := s'.regs.writeReg addr v,
               trace := s'.trace ++ [Event.regWrite addr (v &&& 0xFF)] }, none)

/-- Model of `regmap_bulk_write(map, addr, buf, 2)`: one bus transaction landing
two bytes on consecutive registers, low address first. -/
def regmapBulkWrite2 (s : Sys) (addr lo hi : Nat) : Sys × Option Int :=
  match popFault s with
  | (some e, s') => (s', some e)
  | (none, s') =>
    ({ s' with regs := (s'.regs.writeReg addr lo).writeReg (addr + 1) hi,
               trace := s'.trace ++ [Event.regWrite addr (lo &&& 0xFF),
                                     Event.regWrite (addr + 1) (hi &&& 0xFF)] }, none)

/-- Model of `regmap_bulk_read(map, addr, buf, 2)`: one bus transaction reading
two consecutive registers, low address first. -/
def regmapBulkRead2 (s : Sys) (addr : Nat) : Sys × Except Int (Nat × Nat) :=
  match popFault s with
  | (some e, s') => (s', Except.error e)
  | (none, s') =>
    ({ s' with trace := s'.trace ++ [Event.regRead addr, Event.regRead (addr + 1)] },
     Except.ok (s'.regs.readReg addr, s'.regs.readReg (addr + 1)))

/-- Sequence two fallible steps, aborting on the first error (the
`ret = ...; if (ret) return ret;` pattern of the source). -/
def bindE (r : Sys × Option Int) (k : Sys → Sys × Option Int) : Sys × Option Int :=
  match r with
  | (s, some e) => (s, some e)
  | (s, none) => k s

/-! ### Driver private data (post-probe configuration) -/

/-- Fields of `struct rt8555_priv` (the probe path clamps
`change_duty` and `driver_headroom` to `[0, 3]`, see
`rt8555_bl_probe_config`). -/
structure Priv where
  change_duty : Nat
  driver_headroom : Nat
  current_limit : Nat
  pwm_dim_mode : Bool
deriving DecidableEq, Repr

/-! ### Driver operations, straight from the source -/

/-- Model of `rt8555_bl_enable`. -/
def rt8555_bl_enable (p : Priv) (s : Sys) : Sys × Option Int :=
  let s0 := match s.gpio with
    | some _ => gpiodSetValue s true
    | none => s
  bindE (regmapUpdateBits s0 RT8555_REG_CFG1 RT8555_EN10BIT_MASK 0xFF) fun s1 =>
  bindE (regmapUpdateBits s1 RT8555_REG_CFG0 RT8555_BRIGHTNESS_SOURCE_MASK 0xFF) fun s2 =>
  bindE (regmapUpdateBits s2 RT8555_REG_CFG0 RT8555_DIM_MODE_MASK
          (if p.pwm_dim_mode then 0x00 else 0xFF)) fun s3 =>
  bindE (regmapUpdateBits s3 RT8555_REG_CFG0 RT8555_CHANGE_DUTY_MASK
          (p.change_duty <<< 2)) fun s4 =>
  bindE (regmapUpdateBits s4 RT8555_REG_CFG0 RT8555_MIX_26K_MASK 0xFF) fun s5 =>
  bindE (regmapUpdateBits s5 RT8555_REG_CFG8 RT8555_LED_DRIVER_HEADROOM_MASK
          (p.driver_headroom <<< 2)) fun s6 =>
  regmapWrite s6 RT8555_REG_ILED_CURRENT_LIMIT p.current_limit

/-- Model of `rt8555_bl_is_disabled`: reads back the enable line; a missing line
means "never disabled". Touches no bus transaction. -/
def rt8555_bl_is_disabled (s : Sys) : Bool :=
  match s.gpio with
  | some b => !b
  | none => false

/-- Model of `rt8555_bl_update_status` (the set_brightness path), with
`brightness = backlight_get_brightness(bl_dev)` passed in. The bulk
write lands `brightness & 0xFF` on ILED1_LSB and `brightness >> 8` on
ILED1_MSB (the source passes the address of the 32-bit `brightness`
variable with a 2-byte count). Note the source assigns the bulk write's
return value to `ret` but then `return 0` unconditionally. -/
def rt8555_bl_update_status (p : Priv) (brightness : Nat) (s : Sys) : Sys × Option Int :=
  let pre : Sys × Option Int :=
    if brightness ≠ 0 ∧ s.gpio.isSome then
      if rt8555_bl_is_disabled s then rt8555_bl_enable p s else (s, none)
    else (s, none)
  match pre with
  | (s1, some e) => (s1, some e)
  | (s1, none) =>
    let (s2, _ret) := regmapBulkWrite2 s1 RT8555_REG_ILED1_LSB
        (brightness &&& 0xFF) ((brightness >>> 8) &&& 0xFF)
    let s3 := if brightness = 0 then
        (match s2.gpio with
         | some _ => gpiodSetValue s2 false
         | none => s2)
      else s2
    (s3, none)

/-- Model of `rt8555_bl_get_brightness`: short-circuits to 0 when disabled,
otherwise bulk-reads ILED1_LSB/ILED1_MSB and reconstructs
`lsb ||| (msb <<< 8)`; a bus failure is returned as the error. -/
def rt8555_bl_get_brightness (s : Sys) : Sys × Except Int Nat :=
  if rt8555_bl_is_disabled s then (s, Except.ok 0)
  else
    match regmapBulkRead2 s RT8555_REG_ILED1_LSB with
    | (s', Except.error e) => (s', Except.error e)
    | (s', Except.ok (lsb, msb)) => (s', Except.ok (lsb ||| (msb <<< 8)))

/-! ### Probe-time configuration (`rt8555_bl_probe`) -/

/-- Device-tree property inputs of `rt8555_bl_probe`; `none` models a
property `device_property_read_u32` fails to find. `change_duty` and
`driver_headroom` are read into C `int` fields, hence `Int`. -/
structure ProbeProps where
  max_brightness : Option Nat
  default_brightness : Option Nat
  use_pwm_dimming_mode : Bool
  change_duty : Option Int
  driver_headroom : Option Int
  current_limit : Option Nat
deriving DecidableEq, Repr

/-- Fields of `struct backlight_properties` set by probe. -/
structure BlProps where
  max_brightness : Nat
  brightness : Nat
deriving DecidableEq, Repr

/-- The kernel `clamp(val, lo, hi)` macro on signed ints. -/
def clampInt (v lo hi : Int) : Int := min (max v lo) hi

/-- The pure configuration computation of `rt8555_bl_probe`
(lines 186–215 of the source): clamp `max-brightness` to 1023,
`default-brightness` to the max, `change-duty` and `driver-headroom`
to `[0, 3]`; defaults 1023 / max / 3 / 0 / 0x92. Total: construction
never rejects a range. -/
def rt8555_bl_probe_config (pr : ProbeProps) : BlProps × Priv :=
  let maxb := min (pr.max_brightness.getD RT8555_MAX_BRIGHTNESS) RT8555_MAX_BRIGHTNESS
  let defb := min (pr.default_brightness.getD maxb) maxb
  let cd := clampInt (pr.change_duty.getD 3) 0 3
  let hr := clampInt (pr.driver_headroom.getD (Int.ofNat RT8555_DEFAULT_LED_DRIVER_HEADROOM)) 0 3
  let cl := pr.current_limit.getD RT8555_DEFAULT_CURRENT_LIMIT
  ({ max_brightness := maxb, brightness := defb },
   { change_duty := cd.toNat, driver_headroom := hr.toNat,
     current_limit := cl, pwm_dim_mode := pr.use_pwm_dimming_mode })

/-! ### The enable sequence as explicit step data

The spec describes `enable` as an ordered list of register operations.
`enableSpecSteps` is that list written as data, following the spec's
step enumeration; `runSpecSteps` executes such a list, aborting at and
returning the first failing step's error. Claim C3 compares
`rt8555_bl_enable` against it. -/

/-- One spec-level register operation: a masked read-modify-write or a
full-byte write. -/
inductive SpecStep where
  | updateBits (addr mask v : Nat)
  | fullWrite (addr v : Nat)
deriving DecidableEq, Repr

def SpecStep.addr : SpecStep → Nat
  | .updateBits a _ _ => a
  | .fullWrite a _ => a

def runSpecStep (s : Sys) : SpecStep → Sys × Option Int
  | .updateBits a m v => regmapUpdateBits s a m v
  | .fullWrite a v => regmapWrite s a v

def runSpecSteps (s : Sys) : List SpecStep → Sys × Option Int
  | [] => (s, none)
  | st :: rest => bindE (runSpecStep s st) fun s1 => runSpecSteps s1 rest

/-- The spec's enable sequence: CFG1 bit 7 (10-bit mode), CFG0 bit 1
(register-sourced brightness), CFG0 bit 0 set iff not pwm_dim_mode,
change_duty into CFG0 bits 2-3, CFG0 bit 7 (fixed 26 kHz clock),
driver_headroom into CFG8 bits 2-3, current_limit as a full byte to
register 0x02. -/
def enableSpecSteps (p : Priv) : List SpecStep :=
  [SpecStep.updateBits RT8555_REG_CFG1 0x80 0xFF,
   SpecStep.updateBits RT8555_REG_CFG0 0x02 0xFF,
   SpecStep.updateBits RT8555_REG_CFG0 0x01 (if p.pwm_dim_mode then 0x00 else 0xFF),
   SpecStep.updateBits RT8555_REG_CFG0 0x0C (p.change_duty <<< 2),
   SpecStep.updateBits RT8555_REG_CFG0 0x80 0xFF,
   SpecStep.updateBits RT8555_REG_CFG8 0x0C (p.driver_headroom <<< 2),
   SpecStep.fullWrite RT8555_REG_ILED_CURRENT_LIMIT p.current_limit]

/-- The gpio half of the enable sequence: drive the line active (then the
source sleeps 10-20 ms, not modelled) before any register access. -/
def enableGpioPhase (s : Sys) : Sys :=
  match s.gpio with
  | some _ => gpiodSetValue s true
  | none => s

/-! ### Bit-level helper lemmas -/

lemma and255_of_lt {x : Nat} (h : x < 256) : x &&& 255 = x := by
  have h2 : x < 2 ^ 8 := h
  simpa using Nat.and_pow_two_sub_one_of_lt_two_pow h2

lemma upd_lt (m v x : Nat) (hm : m < 256) : upd m v x < 256 := by
  have hm2 : m < 2 ^ 8 := hm
  have h255 : (255 : Nat) < 2 ^ 8 := by norm_num
  have h1 : (255 ^^^ m) < 2 ^ 8 := Nat.xor_lt_two_pow h255 hm2
  have h2 : x &&& (255 ^^^ m) < 2 ^ 8 := Nat.lt_of_le_of_lt Nat.and_le_right h1
  have h3 : v &&& m < 2 ^ 8 := Nat.lt_of_le_of_lt Nat.and_le_right hm2
  exact Nat.or_lt_two_pow h2 h3

@[simp] lemma upd_and255 (m v x : Nat) (hm : m < 256) : upd m v x &&& 255 = upd m v x :=
  and255_of_lt (upd_lt m v x hm)

lemma or_and_lit (x a b c : Nat) : ((x &&& a) ||| b) &&& c = (x &&& (a &&& c)) ||| (b &&& c) := by
  rw [Nat.and_distrib_right, Nat.and_assoc]

lemma and255_and255 (x : Nat) : x &&& 255 &&& 255 = x &&& 255 := by
  rw [Nat.and_assoc, (by decide : (255 : Nat) &&& 255 = 255)]

/-- Bits of mask and bits outside mask are disjoint (8-bit registers). -/
lemma and_mask_and_compl (v m : Nat) (hm : m < 256) : (v &&& m) &&& (255 ^^^ m) = 0 := by
  apply Nat.eq_of_testBit_eq
  intro i
  simp only [Nat.testBit_and, Nat.testBit_xor, Nat.zero_testBit]
  cases hmi : m.testBit i with
  | false => simp [hmi]
  | true =>
    have hge : 2 ^ i ≤ m := Nat.testBit_implies_ge hmi
    have hi : i < 8 := by
      by_contra hcon
      have h8 : (2 : Nat) ^ 8 ≤ 2 ^ i := Nat.pow_le_pow_right (by norm_num) (by omega)
      omega
    have h255 : (255 : Nat).testBit i = true := by
      rw [(by norm_num : (255 : Nat) = 2 ^ 8 - 1), Nat.testBit_two_pow_sub_one]
      simpa using hi
    simp [hmi, h255]

/-- A masked read-modify-write preserves every bit outside its mask. -/
lemma upd_preserves_outside (m v x : Nat) (hm : m < 256) :
    upd m v x &&& (255 ^^^ m) = x &&& (255 ^^^ m) := by
  rw [upd, Nat.and_distrib_right, Nat.and_assoc, Nat.and_self,
      and_mask_and_compl v m hm, Nat.or_zero]

/-! ### Single-step expansions of the masked updates the driver issues -/

lemma upd_bit2_set (x : Nat) : upd 2 255 x = (x &&& 253) ||| 2 := by
  rw [upd, (by decide : (0xFF : Nat) ^^^ 2 = 253), (by decide : (255 : Nat) &&& 2 = 2)]

lemma upd_bit0_set (x : Nat) : upd 1 255 x = (x &&& 254) ||| 1 := by
  rw [upd, (by decide : (0xFF : Nat) ^^^ 1 = 254), (by decide : (255 : Nat) &&& 1 = 1)]

lemma upd_bit0_clr (x : Nat) : upd 1 0 x = x &&& 254 := by
  rw [upd, (by decide : (0xFF : Nat) ^^^ 1 = 254), (by decide : (0 : Nat) &&& 1 = 0), Nat.or_zero]

lemma upd_duty (w x : Nat) : upd 12 w x = (x &&& 243) ||| (w &&& 12) := by
  rw [upd, (by decide : (0xFF : Nat) ^^^ 12 = 243)]

lemma upd_bit7_set (x : Nat) : upd 128 255 x = (x &&& 127) ||| 128 := by
  rw [upd, (by decide : (0xFF : Nat) ^^^ 128 = 127), (by decide : (255 : Nat) &&& 128 = 128)]

/-- Closed form of the four CFG0 updates in order, mixed dimming mode
(pwm_dim_mode false: bit 0 set): bits 4-6 preserved, bits 0,1,7 set,
change_duty in bits 2-3. -/
lemma cfg0_chain_false (cd x : Nat) :
    upd 128 255 (upd 12 (cd <<< 2) (upd 1 255 (upd 2 255 x))) =
      (x &&& 112) ||| ((cd <<< 2 &&& 12) ||| 131) := by
  rw [upd_bit2_set, upd_bit0_set, upd_duty, upd_bit7_set]
  rw [or_and_lit x 253 2 254, (by decide : (253 : Nat) &&& 254 = 252),
      (by decide : (2 : Nat) &&& 254 = 2),
      Nat.or_assoc (x &&& 252) 2 1, (by decide : (2 : Nat) ||| 1 = 3)]
  rw [or_and_lit x 252 3 243, (by decide : (252 : Nat) &&& 243 = 240),
      (by decide : (3 : Nat) &&& 243 = 3)]
  rw [Nat.and_distrib_right ((x &&& 240) ||| 3) (cd <<< 2 &&& 12) 127,
      or_and_lit x 240 3 127, (by decide : (240 : Nat) &&& 127 = 112),
      (by decide : (3 : Nat) &&& 127 = 3),
      Nat.and_assoc (cd <<< 2) 12 127, (by decide : (12 : Nat) &&& 127 = 12)]
  rw [Nat.or_assoc ((x &&& 112) ||| 3) (cd <<< 2 &&& 12) 128,
      Nat.or_assoc (x &&& 112) 3 ((cd <<< 2 &&& 12) ||| 128),
      ← Nat.or_assoc 3 (cd <<< 2 &&& 12) 128,
      Nat.or_comm 3 (cd <<< 2 &&& 12),
      Nat.or_assoc (cd <<< 2 &&& 12) 3 128, (by decide : (3 : Nat) ||| 128 = 131)]

/-- Closed form of the four CFG0 updates in order, PWM dimming mode
(pwm_dim_mode true: bit 0 cleared). -/
lemma cfg0_chain_true (cd x : Nat) :
    upd 128 255 (upd 12 (cd <<< 2) (upd 1 0 (upd 2 255 x))) =
      (x &&& 112) ||| ((cd <<< 2 &&& 12) ||| 130) := by
  rw [upd_bit2_set, upd_bit0_clr, upd_duty, upd_bit7_set]
  rw [or_and_lit x 253 2 254, (by decide : (253 : Nat) &&& 254 = 252),
      (by decide : (2 : Nat) &&& 254 = 2)]
  rw [or_and_lit x 252 2 243, (by decide : (252 : Nat) &&& 243 = 240),
      (by decide : (2 : Nat) &&& 243 = 2)]
  rw [Nat.and_distrib_right ((x &&& 240) ||| 2) (cd <<< 2 &&& 12) 127,
      or_and_lit x 240 2 127, (by decide : (240 : Nat) &&& 127 = 112),
      (by decide : (2 : Nat) &&& 127 = 2),
      Nat.and_assoc (cd <<< 2) 12 127, (by decide : (12 : Nat) &&& 127 = 12)]
  rw [Nat.or_assoc ((x &&& 112) ||| 2) (cd <<< 2 &&& 12) 128,
      Nat.or_assoc (x &&& 112) 2 ((cd <<< 2 &&& 12) ||| 128),
      ← Nat.or_assoc 2 (cd <<< 2 &&& 12) 128,
      Nat.or_comm 2 (cd <<< 2 &&& 12),
      Nat.or_assoc (cd <<< 2 &&& 12) 2 128, (by decide : (2 : Nat) ||| 128 = 130)]

/-! ### Behaviour characterizations -/

/-- The enable-line readback: disabled exactly when a line exists and its
last driven value is inactive. -/
lemma is_disabled_iff (s : Sys) : rt8555_bl_is_disabled s = true ↔ s.gpio = some false := by
  cases hg : s.gpio with
  | none => simp [rt8555_bl_is_disabled, hg]
  | some b => cases b <;> simp [rt8555_bl_is_disabled, hg]

theorem rt8555_bl_enable_ok (p : Priv) (s : Sys) (hf : s.faults = []) :
    rt8555_bl_enable p s =
      ({ regs := { cfg0 := upd 128 255 (upd 12 (p.change_duty <<< 2)
                     (upd 1 (if p.pwm_dim_mode then 0x00 else 0xFF) (upd 2 255 s.regs.cfg0))),
                   cfg1 := upd 128 255 s.regs.cfg1,
                   iledCurrentLimit := p.current_limit &&& 255,
                   iled1Lsb := s.regs.iled1Lsb,
                   iled1Msb := s.regs.iled1Msb,
                   cfg8 := upd 12 (p.driver_headroom <<< 2) s.regs.cfg8 },
         gpio := s.gpio.map (fun _ => true),
         faults := [],
         trace := s.trace ++
           (match s.gpio with | some _ => [Event.gpioSet true] | none => []) ++
           [Event.regWrite RT8555_REG_CFG1 (upd 128 255 s.regs.cfg1),
            Event.regWrite RT8555_REG_CFG0 (upd 2 255 s.regs.cfg0),
            Event.regWrite RT8555_REG_CFG0
              (upd 1 (if p.pwm_dim_mode then 0x00 else 0xFF) (upd 2 255 s.regs.cfg0)),
            Event.regWrite RT8555_REG_CFG0 (upd 12 (p.change_duty <<< 2)
              (upd 1 (if p.pwm_dim_mode then 0x00 else 0xFF) (upd 2 255 s.regs.cfg0))),
            Event.regWrite RT8555_REG_CFG0 (upd 128 255 (upd 12 (p.change_duty <<< 2)
              (upd 1 (if p.pwm_dim_mode then 0x00 else 0xFF) (upd 2 255 s.regs.cfg0)))),
            Event.regWrite RT8555_REG_CFG8 (upd 12 (p.driver_headroom <<< 2) s.regs.cfg8),
            Event.regWrite RT8555_REG_ILED_CURRENT_LIMIT (p.current_limit &&& 255)] }, none) := by
  obtain ⟨regs, gpio, faults, trace⟩ := s
  simp only at hf
  subst hf
  cases gpio with
  | none =>
    cases hp : p.pwm_dim_mode <;>
      simp [rt8555_bl_enable, gpiodSetValue, regmapUpdateBits, regmapWrite, popFault,
            bindE, RegMap.readReg, RegMap.writeReg, RT8555_REG_CFG0, RT8555_REG_CFG1,
            RT8555_REG_CFG8, RT8555_REG_ILED_CURRENT_LIMIT, RT8555_REG_ILED1_LSB,
            RT8555_REG_ILED1_MSB, RT8555_DIM_MODE_MASK, RT8555_BRIGHTNESS_SOURCE_MASK,
            RT8555_CHANGE_DUTY_MASK, RT8555_LED_DRIVER_HEADROOM_MASK, RT8555_MIX_26K_MASK,
            RT8555_EN10BIT_MASK, hp]
  | some b =>
    cases hp : p.pwm_dim_mode <;>
      simp [rt8555_bl_enable, gpiodSetValue, regmapUpdateBits, regmapWrite, popFault,
            bindE, RegMap.readReg, RegMap.writeReg, RT8555_REG_CFG0, RT8555_REG_CFG1,
            RT8555_REG_CFG8, RT8555_REG_ILED_CURRENT_LIMIT, RT8555_REG_ILED1_LSB,
            RT8555_REG_ILED1_MSB, RT8555_DIM_MODE_MASK, RT8555_BRIGHTNESS_SOURCE_MASK,
            RT8555_CHANGE_DUTY_MASK, RT8555_LED_DRIVER_HEADROOM_MASK, RT8555_MIX_26K_MASK,
            RT8555_EN10BIT_MASK, hp]

/-- set_brightness on an already-enabled (or enable-less) controller with a
nonzero level: just the ordered two-byte brightness write. -/
theorem update_status_pos_enabled (p : Priv) (b : Nat) (s : Sys) (hb : b ≠ 0)
    (hd : rt8555_bl_is_disabled s = false) (hf : s.faults = []) :
    rt8555_bl_update_status p b s =
      ({ regs := { s.regs with iled1Lsb := b &&& 255, iled1Msb := (b >>> 8) &&& 255 },
         gpio := s.gpio, faults := [],
         trace := s.trace ++ [Event.regWrite RT8555_REG_ILED1_LSB (b &&& 255),
                              Event.regWrite RT8555_REG_ILED1_MSB ((b >>> 8) &&& 255)] },
       none) := by
  obtain ⟨regs, gpio, faults, trace⟩ := s
  simp only at hf
  subst hf
  cases gpio with
  | none =>
    simp [rt8555_bl_update_status, rt8555_bl_is_disabled, regmapBulkWrite2, popFault,
          RegMap.writeReg, RT8555_REG_ILED1_LSB, RT8555_REG_ILED1_MSB, RT8555_REG_CFG0,
          RT8555_REG_CFG1, RT8555_REG_CFG8, RT8555_REG_ILED_CURRENT_LIMIT, hb,
          and255_and255]
  | some bb =>
    simp only [rt8555_bl_is_disabled] at hd
    simp [rt8555_bl_update_status, rt8555_bl_is_disabled, regmapBulkWrite2, popFault,
          RegMap.writeReg, RT8555_REG_ILED1_LSB, RT8555_REG_ILED1_MSB, RT8555_REG_CFG0,
          RT8555_REG_CFG1, RT8555_REG_CFG8, RT8555_REG_ILED_CURRENT_LIMIT, hb, hd,
          and255_and255]

/-- set_brightness(0) with an enable line present: brightness write first,
then the enable line is driven inactive. -/
theorem update_status_zero_gpio (p : Priv) (s : Sys) (bb : Bool)
    (hg : s.gpio = some bb) (hf : s.faults = []) :
    rt8555_bl_update_status p 0 s =
      ({ regs := { s.regs with iled1Lsb := 0, iled1Msb := 0 },
         gpio := some false, faults := [],
         trace := s.trace ++ [Event.regWrite RT8555_REG_ILED1_LSB 0,
                              Event.regWrite RT8555_REG_ILED1_MSB 0,
                              Event.gpioSet false] }, none) := by
  obtain ⟨regs, gpio, faults, trace⟩ := s
  simp only at hf hg
  subst hf
  subst hg
  simp [rt8555_bl_update_status, rt8555_bl_is_disabled, regmapBulkWrite2, popFault,
        gpiodSetValue, RegMap.writeReg, RT8555_REG_ILED1_LSB, RT8555_REG_ILED1_MSB,
        RT8555_REG_CFG0, RT8555_REG_CFG1, RT8555_REG_CFG8, RT8555_REG_ILED_CURRENT_LIMIT]

/-- set_brightness(0) without an enable line: just the zero write. -/
theorem update_status_zero_nogpio (p : Priv) (s : Sys)
    (hg : s.gpio = none) (hf : s.faults = []) :
    rt8555_bl_update_status p 0 s =
      ({ regs := { s.regs with iled1Lsb := 0, iled1Msb := 0 },
         gpio := none, faults := [],
         trace := s.trace ++ [Event.regWrite RT8555_REG_ILED1_LSB 0,
                              Event.regWrite RT8555_REG_ILED1_MSB 0] }, none) := by
  obtain ⟨regs, gpio, faults, trace⟩ := s
  simp only at hf hg
  subst hf
  subst hg
  simp [rt8555_bl_update_status, rt8555_bl_is_disabled, regmapBulkWrite2, popFault,
        gpiodSetValue, RegMap.writeReg, RT8555_REG_ILED1_LSB, RT8555_REG_ILED1_MSB,
        RT8555_REG_CFG0, RT8555_REG_CFG1, RT8555_REG_CFG8, RT8555_REG_ILED_CURRENT_LIMIT]

/-- set_brightness(level > 0) on a disabled controller: the full enable
sequence runs first, then the brightness write. -/
theorem update_status_pos_disabled (p : Priv) (b : Nat) (s : Sys) (hb : b ≠ 0)
    (hg : s.gpio = some false) (hf : s.faults = []) :
    rt8555_bl_update_status p b s =
      ({ regs := { (rt8555_bl_enable p s).1.regs with
                     iled1Lsb := b &&& 255, iled1Msb := (b >>> 8) &&& 255 },
         gpio := some true, faults := [],
         trace := (rt8555_bl_enable p s).1.trace ++
           [Event.regWrite RT8555_REG_ILED1_LSB (b &&& 255),
            Event.regWrite RT8555_REG_ILED1_MSB ((b >>> 8) &&& 255)] }, none) := by
  have he := rt8555_bl_enable_ok p s hf
  obtain ⟨regs, gpio, faults, trace⟩ := s
  simp only at hf hg
  subst hf
  subst hg
  rw [rt8555_bl_update_status]
  rw [show rt8555_bl_is_disabled ⟨regs, some false, [], trace⟩ = true from rfl]
  simp only [he]
  simp [regmapBulkWrite2, popFault, RegMap.writeReg, RT8555_REG_ILED1_LSB,
        RT8555_REG_ILED1_MSB, RT8555_REG_CFG0, RT8555_REG_CFG1, RT8555_REG_CFG8,
        RT8555_REG_ILED_CURRENT_LIMIT, hb, and255_and255]

/-- get_brightness on a disabled controller: returns 0, state untouched
(no bus transaction recorded, no fault slot consumed). -/
theorem get_brightness_disabled (s : Sys) (hd : rt8555_bl_is_disabled s = true) :
    rt8555_bl_get_brightness s = (s, Except.ok 0) := by
  simp [rt8555_bl_get_brightness, hd]

/-- get_brightness on an enabled controller, fault-free bus. -/
theorem get_brightness_enabled_ok (s : Sys) (hd : rt8555_bl_is_disabled s = false)
    (hf : s.faults = []) :
    rt8555_bl_get_brightness s =
      ({ s with trace := s.trace ++ [Event.regRead RT8555_REG_ILED1_LSB,
                                     Event.regRead RT8555_REG_ILED1_MSB] },
       Except.ok (s.regs.iled1Lsb ||| (s.regs.iled1Msb <<< 8))) := by
  obtain ⟨regs, gpio, faults, trace⟩ := s
  simp only at hf
  subst hf
  simp [rt8555_bl_get_brightness, regmapBulkRead2, popFault, RegMap.readReg, hd,
        RT8555_REG_ILED1_LSB, RT8555_REG_ILED1_MSB, RT8555_REG_CFG0, RT8555_REG_CFG1,
        RT8555_REG_CFG8, RT8555_REG_ILED_CURRENT_LIMIT]

/-- get_brightness on an enabled controller when the bus read faults:
the error is returned. -/
theorem get_brightness_enabled_fault (s : Sys) (e : Int) (rest : List (Option Int))
    (hd : rt8555_bl_is_disabled s = false) (hf : s.faults = some e :: rest) :
    rt8555_bl_get_brightness s = ({ s with faults := rest }, Except.error e) := by
  obtain ⟨regs, gpio, faults, trace⟩ := s
  simp only at hf
  subst hf
  simp [rt8555_bl_get_brightness, regmapBulkRead2, popFault, hd]

/-- Reassembling the two brightness bytes gives back the value. -/
lemma lsb_msb_recombine {l : Nat} (h : l < 65536) :
    (l &&& 255) ||| (((l >>> 8) &&& 255) <<< 8) = l := by
  have h255 : (255 : Nat) = 2 ^ 8 - 1 := by norm_num
  have h1 : l >>> 8 = l / 2 ^ 8 := Nat.shiftRight_eq_div_pow l 8
  have h2 : l / 2 ^ 8 < 2 ^ 8 := by
    apply Nat.div_lt_of_lt_mul
    norm_num at h ⊢
    exact h
  rw [h1, h255, Nat.and_pow_two_sub_one_eq_mod,
      Nat.and_pow_two_sub_one_of_lt_two_pow h2, Nat.shiftLeft_eq,
      Nat.or_comm, Nat.mul_comm, ← Nat.mul_add_lt_is_or (Nat.mod_lt _ (by norm_num)),
      Nat.div_add_mod]

/-! ### Refinement of the enable sequence to the spec step list -/

lemma bindE_pure (r : Sys × Option Int) : bindE r (fun s1 => (s1, none)) = r := by
  rcases r with ⟨s1, o⟩
  cases o <;> rfl

theorem enable_eq_spec (p : Priv) (s : Sys) :
    rt8555_bl_enable p s = runSpecSteps (enableGpioPhase s) (enableSpecSteps p) := by
  cases hg : s.gpio <;>
    simp [rt8555_bl_enable, runSpecSteps, runSpecStep, enableSpecSteps, enableGpioPhase,
          RT8555_EN10BIT_MASK, RT8555_BRIGHTNESS_SOURCE_MASK, RT8555_DIM_MODE_MASK,
          RT8555_CHANGE_DUTY_MASK, RT8555_MIX_26K_MASK, RT8555_LED_DRIVER_HEADROOM_MASK,
          hg, bindE_pure]

lemma writeReg_other_iled (m : RegMap) (a v : Nat)
    (h4 : a ≠ RT8555_REG_ILED1_LSB) (h5 : a ≠ RT8555_REG_ILED1_MSB) :
    (m.writeReg a v).iled1Lsb = m.iled1Lsb ∧ (m.writeReg a v).iled1Msb = m.iled1Msb := by
  rw [RegMap.writeReg]
  split_ifs <;> simp_all

lemma runSpecStep_preserves_iled (s : Sys) (st : SpecStep)
    (h4 : st.addr ≠ RT8555_REG_ILED1_LSB) (h5 : st.addr ≠ RT8555_REG_ILED1_MSB) :
    (runSpecStep s st).1.regs.iled1Lsb = s.regs.iled1Lsb ∧
    (runSpecStep s st).1.regs.iled1Msb = s.regs.iled1Msb := by
  cases st with
  | updateBits a m v =>
    simp only [SpecStep.addr] at h4 h5
    rw [runSpecStep, regmapUpdateBits]
    cases hf : s.faults with
    | nil => simpa [popFault, hf] using writeReg_other_iled s.regs a _ h4 h5
    | cons f rest =>
      cases f with
      | none => simpa [popFault, hf] using writeReg_other_iled s.regs a _ h4 h5
      | some e => simp [popFault, hf]
  | fullWrite a v =>
    simp only [SpecStep.addr] at h4 h5
    rw [runSpecStep, regmapWrite]
    cases hf : s.faults with
    | nil => simpa [popFault, hf] using writeReg_other_iled s.regs a v h4 h5
    | cons f rest =>
      cases f with
      | none => simpa [popFault, hf] using writeReg_other_iled s.regs a v h4 h5
      | some e => simp [popFault, hf]

lemma runSpecSteps_preserves_iled (steps : List SpecStep) (s : Sys)
    (h : ∀ st ∈ steps, st.addr ≠ RT8555_REG_ILED1_LSB ∧ st.addr ≠ RT8555_REG_ILED1_MSB) :
    (runSpecSteps s steps).1.regs.iled1Lsb = s.regs.iled1Lsb ∧
    (runSpecSteps s steps).1.regs.iled1Msb = s.regs.iled1Msb := by
  induction steps generalizing s with
  | nil => simp [runSpecSteps]
  | cons st rest ih =>
    have hst := h st (by simp)
    have hrest : ∀ x ∈ rest, x.addr ≠ RT8555_REG_ILED1_LSB ∧ x.addr ≠ RT8555_REG_ILED1_MSB := by
      intro x hx
      exact h x (by simp [hx])
    have hstep := runSpecStep_preserves_iled s st hst.1 hst.2
    rw [runSpecSteps]
    rcases hrun : runSpecStep s st with ⟨s1, r⟩
    rw [hrun] at hstep
    cases r with
    | some e => simpa [bindE] using hstep
    | none =>
      have htail := ih s1 hrest
      simp only [bindE]
      exact ⟨htail.1.trans hstep.1, htail.2.trans hstep.2⟩

/-- The enable sequence never touches the brightness registers, whatever
the fault schedule (including the partial runs of failed enables). -/
lemma enable_preserves_iled (p : Priv) (s : Sys) :
    (rt8555_bl_enable p s).1.regs.iled1Lsb = s.regs.iled1Lsb ∧
    (rt8555_bl_enable p s).1.regs.iled1Msb = s.regs.iled1Msb := by
  rw [enable_eq_spec]
  have hg : (enableGpioPhase s).regs = s.regs := by
    cases hgp : s.gpio <;> simp [enableGpioPhase, gpiodSetValue, hgp]
  have h := runSpecSteps_preserves_iled (enableSpecSteps p) (enableGpioPhase s) ?_
  · rw [hg] at h
    exact h
  · intro st hst
    simp only [enableSpecSteps, List.mem_cons] at hst
    rcases hst with h1 | h1 | h1 | h1 | h1 | h1 | h1 | h1 <;>
      first
        | (subst h1; simp [SpecStep.addr, RT8555_REG_CFG0, RT8555_REG_CFG1, RT8555_REG_CFG8,
              RT8555_REG_ILED_CURRENT_LIMIT, RT8555_REG_ILED1_LSB, RT8555_REG_ILED1_MSB])
        | simp_all


lemma runSpecStep_fault (s : Sys) (st : SpecStep) (e : Int) (t : List (Option Int))
    (hf : s.faults = some e :: t) :
    runSpecStep s st = ({ s with faults := t }, some e) := by
  cases st <;> simp [runSpecStep, regmapUpdateBits, regmapWrite, popFault, hf]

lemma runSpecStep_nofault (s : Sys) (st : SpecStep) (t : List (Option Int))
    (hf : s.faults = none :: t) :
    (runSpecStep s st).2 = none ∧ (runSpecStep s st).1.faults = t ∧
    (runSpecStep s st).1.trace.length = s.trace.length + 1 := by
  cases st <;> simp [runSpecStep, regmapUpdateBits, regmapWrite, popFault, hf]

/-- A fault injected at step i of a step list aborts there: the error of
step i is returned and exactly i events were recorded. -/
lemma runSpecSteps_abort (steps : List SpecStep) (s : Sys) (i : Nat) (e : Int)
    (rest : List (Option Int)) (hi : i < steps.length)
    (hf : s.faults = List.replicate i none ++ some e :: rest) :
    (runSpecSteps s steps).2 = some e ∧
    (runSpecSteps s steps).1.trace.length = s.trace.length + i := by
  induction steps generalizing s i with
  | nil => simp at hi
  | cons st tail ih =>
    cases i with
    | zero =>
      simp only [List.replicate, List.nil_append] at hf
      rw [runSpecSteps, runSpecStep_fault s st e rest hf]
      simp [bindE]
    | succ j =>
      have hf2 : s.faults = none :: (List.replicate j none ++ some e :: rest) := by
        simpa [List.replicate] using hf
      have h1 := runSpecStep_nofault s st _ hf2
      rw [runSpecSteps]
      rcases hrun : runSpecStep s st with ⟨s1, r⟩
      rw [hrun] at h1
      obtain ⟨hr, hfa, htr⟩ := h1
      simp only at hr hfa htr
      subst hr
      have hj : j < tail.length := by
        simp at hi
        omega
      have htail := ih s1 j hj hfa
      simp only [bindE]
      refine ⟨htail.1, ?_⟩
      rw [htail.2, htr]
      omega

lemma enableGpioPhase_faults (s : Sys) : (enableGpioPhase s).faults = s.faults := by
  cases hg : s.gpio <;> simp [enableGpioPhase, gpiodSetValue, hg]

/-- A bus fault at step i (0-based) of the seven-step enable register
sequence makes enable return exactly that error. -/
lemma enable_abort (p : Priv) (s : Sys) (i : Nat) (e : Int) (rest : List (Option Int))
    (hi : i < 7) (hf : s.faults = List.replicate i none ++ some e :: rest) :
    (rt8555_bl_enable p s).2 = some e := by
  rw [enable_eq_spec]
  have hlen : i < (enableSpecSteps p).length := by
    simp [enableSpecSteps]
    omega
  have hfa : (enableGpioPhase s).faults = List.replicate i none ++ some e :: rest := by
    rw [enableGpioPhase_faults, hf]
  exact (runSpecSteps_abort (enableSpecSteps p) (enableGpioPhase s) i e rest hlen hfa).1

/-! ### The claims -/

/-- C1 (code bug evaluation): a bus error during the bulk brightness write
in set_brightness is NOT reported to the caller. At brightness 100 on an
enabled controller with the single bulk-write transaction failing with
error -5, `rt8555_bl_update_status` still returns success (`none`): the
source assigns the bulk write's return value to `ret` but then executes
`return 0` unconditionally. The claim (and the spec) say the error is
propagated; the code swallows it. -/
theorem claim_C1_bus_error_swallowed :
    rt8555_bl_update_status ⟨3, 0, 0x92, false⟩ 100
        ⟨⟨0, 0, 0, 0, 0, 0⟩, some true, [some (-5)], []⟩ =
      (⟨⟨0, 0, 0, 0, 0, 0⟩, some true, [], []⟩, none) := by decide

/-- C2: round-trip law over a faithful (fault-free) register model: for
every level with 0 ≤ level ≤ max_brightness, set_brightness(level)
followed by get_brightness() returns exactly level when level > 0, and
returns 0 when level = 0 (via the disabled short-circuit when an enable
line exists, or via the zero landed in the registers when it does not). -/
theorem claim_C2_roundtrip (p : Priv) (level : Nat) (s : Sys)
    (hf : s.faults = []) (hmax : level ≤ RT8555_MAX_BRIGHTNESS) :
    (0 < level →
      (rt8555_bl_get_brightness (rt8555_bl_update_status p level s).1).2 = Except.ok level) ∧
    (level = 0 →
      (rt8555_bl_get_brightness (rt8555_bl_update_status p level s).1).2 = Except.ok 0) := by
  have hm1023 : RT8555_MAX_BRIGHTNESS = 1023 := rfl
  have hlt : level < 65536 := by omega
  constructor
  · intro hpos
    have hne : level ≠ 0 := by omega
    by_cases hd : rt8555_bl_is_disabled s = true
    · have hg := (is_disabled_iff s).1 hd
      rw [update_status_pos_disabled p level s hne hg hf]
      rw [get_brightness_enabled_ok _ (by simp [rt8555_bl_is_disabled]) rfl]
      simpa using lsb_msb_recombine hlt
    · have hd2 : rt8555_bl_is_disabled s = false := by simpa using hd
      rw [update_status_pos_enabled p level s hne hd2 hf]
      rw [get_brightness_enabled_ok _ (by simpa [rt8555_bl_is_disabled] using hd2) rfl]
      simpa using lsb_msb_recombine hlt
  · intro hzero
    subst hzero
    cases hg : s.gpio with
    | none =>
      rw [update_status_zero_nogpio p s hg hf]
      rw [get_brightness_enabled_ok _ (by simp [rt8555_bl_is_disabled]) rfl]
      simp
    | some bb =>
      rw [update_status_zero_gpio p s bb hg hf]
      rw [get_brightness_disabled _ (by simp [rt8555_bl_is_disabled])]

/-- C3: the enable operation performs exactly the spec's ordered step
list (`enableSpecSteps`: CFG1 bit 7, CFG0 bit 1, CFG0 bit 0 iff not
pwm_dim_mode, change_duty into CFG0 bits 2-3, CFG0 bit 7, driver_headroom
into CFG8 bits 2-3, current_limit as a full byte to 0x02), executed by
`runSpecSteps`, which aborts at and returns the first failing step's
error; every masked update preserves all register bits outside its mask;
and a fault injected at any step i < 7 makes enable return exactly that
step's error. -/
theorem claim_C3_enable_sequence :
    (∀ (p : Priv) (s : Sys),
      rt8555_bl_enable p s = runSpecSteps (enableGpioPhase s) (enableSpecSteps p)) ∧
    (∀ m v x : Nat, m < 256 → upd m v x &&& (255 ^^^ m) = x &&& (255 ^^^ m)) ∧
    (∀ (p : Priv) (s : Sys) (i : Nat) (e : Int) (rest : List (Option Int)), i < 7 →
      s.faults = List.replicate i none ++ some e :: rest →
      (rt8555_bl_enable p s).2 = some e) :=
  ⟨enable_eq_spec, upd_preserves_outside, enable_abort⟩

lemma chain_false_absorb (cd x : Nat) :
    ((x &&& 112) ||| ((cd <<< 2 &&& 12) ||| 131)) &&& 112 = x &&& 112 := by
  rw [Nat.and_distrib_right, Nat.and_assoc, (by decide : (112 : Nat) &&& 112 = 112),
      Nat.and_distrib_right, Nat.and_assoc, (by decide : (12 : Nat) &&& 112 = 0),
      Nat.and_zero, (by decide : (131 : Nat) &&& 112 = 0), Nat.or_zero, Nat.or_zero]

lemma chain_true_absorb (cd x : Nat) :
    ((x &&& 112) ||| ((cd <<< 2 &&& 12) ||| 130)) &&& 112 = x &&& 112 := by
  rw [Nat.and_distrib_right, Nat.and_assoc, (by decide : (112 : Nat) &&& 112 = 112),
      Nat.and_distrib_right, Nat.and_assoc, (by decide : (12 : Nat) &&& 112 = 0),
      Nat.and_zero, (by decide : (130 : Nat) &&& 112 = 0), Nat.or_zero, Nat.or_zero]

lemma cfg1_absorb (x : Nat) : ((x &&& 127) ||| 128) &&& 127 = x &&& 127 := by
  rw [Nat.and_distrib_right, Nat.and_assoc, (by decide : (127 : Nat) &&& 127 = 127),
      (by decide : (128 : Nat) &&& 127 = 0), Nat.or_zero]

lemma cfg8_absorb (hr x : Nat) : ((x &&& 243) ||| (hr <<< 2 &&& 12)) &&& 243 = x &&& 243 := by
  rw [Nat.and_distrib_right, Nat.and_assoc, (by decide : (243 : Nat) &&& 243 = 243),
      Nat.and_assoc, (by decide : (12 : Nat) &&& 243 = 0), Nat.and_zero, Nat.or_zero]

/-- C4: with an enable line present, set_brightness(0) drives the line
inactive only after the brightness-register write was issued (the exact
trace is brightness writes then gpio-inactive); and set_brightness(level
> 0) on a disabled controller drives the line active before any
brightness-register write is observed (gpio-active is the first event and
no event before the final brightness writes touches registers 0x04/0x05). -/
theorem claim_C4_gpio_ordering :
    (∀ (p : Priv) (s : Sys) (bb : Bool), s.gpio = some bb → s.faults = [] →
      (rt8555_bl_update_status p 0 s).1.trace =
        s.trace ++ [Event.regWrite RT8555_REG_ILED1_LSB 0,
                    Event.regWrite RT8555_REG_ILED1_MSB 0,
                    Event.gpioSet false]) ∧
    (∀ (p : Priv) (b : Nat) (s : Sys), b ≠ 0 → s.gpio = some false → s.faults = [] →
      ∃ mid : List Event,
        (rt8555_bl_update_status p b s).1.trace =
          s.trace ++ Event.gpioSet true :: (mid ++
            [Event.regWrite RT8555_REG_ILED1_LSB (b &&& 0xFF),
             Event.regWrite RT8555_REG_ILED1_MSB ((b >>> 8) &&& 0xFF)]) ∧
        ∀ ev ∈ mid, ∀ v : Nat, ev ≠ Event.regWrite RT8555_REG_ILED1_LSB v ∧
                               ev ≠ Event.regWrite RT8555_REG_ILED1_MSB v) := by
  constructor
  · intro p s bb hg hf
    rw [update_status_zero_gpio p s bb hg hf]
  · intro p b s hb hg hf
    rw [update_status_pos_disabled p b s hb hg hf]
    have he := rt8555_bl_enable_ok p s hf
    refine ⟨[Event.regWrite RT8555_REG_CFG1 (upd 128 255 s.regs.cfg1),
             Event.regWrite RT8555_REG_CFG0 (upd 2 255 s.regs.cfg0),
             Event.regWrite RT8555_REG_CFG0
               (upd 1 (if p.pwm_dim_mode then 0x00 else 0xFF) (upd 2 255 s.regs.cfg0)),
             Event.regWrite RT8555_REG_CFG0 (upd 12 (p.change_duty <<< 2)
               (upd 1 (if p.pwm_dim_mode then 0x00 else 0xFF) (upd 2 255 s.regs.cfg0))),
             Event.regWrite RT8555_REG_CFG0 (upd 128 255 (upd 12 (p.change_duty <<< 2)
               (upd 1 (if p.pwm_dim_mode then 0x00 else 0xFF) (upd 2 255 s.regs.cfg0)))),
             Event.regWrite RT8555_REG_CFG8 (upd 12 (p.driver_headroom <<< 2) s.regs.cfg8),
             Event.regWrite RT8555_REG_ILED_CURRENT_LIMIT (p.current_limit &&& 255)], ?_, ?_⟩
    · rw [he]
      simp [hg, RT8555_REG_CFG0, RT8555_REG_CFG1, RT8555_REG_CFG8,
            RT8555_REG_ILED_CURRENT_LIMIT, RT8555_REG_ILED1_LSB, RT8555_REG_ILED1_MSB]
    · intro ev hev v
      simp only [List.mem_cons, List.not_mem_nil, or_false] at hev
      rcases hev with h | h | h | h | h | h | h <;> subst h <;>
        exact ⟨by simp [RT8555_REG_ILED1_LSB, RT8555_REG_CFG0, RT8555_REG_CFG1,
                        RT8555_REG_CFG8, RT8555_REG_ILED_CURRENT_LIMIT],
               by simp [RT8555_REG_ILED1_MSB, RT8555_REG_CFG0, RT8555_REG_CFG1,
                        RT8555_REG_CFG8, RT8555_REG_ILED_CURRENT_LIMIT]⟩

/-- C5: for level > 0 with an enable line present and the controller
disabled, set_brightness runs the enable sequence first; if it fails,
set_brightness returns the enable error and the brightness registers
0x04/0x05 are unchanged (no brightness write was performed). -/
theorem claim_C5_enable_error_aborts (p : Priv) (b : Nat) (s : Sys) (e : Int)
    (hb : b ≠ 0) (hg : s.gpio = some false) (he : (rt8555_bl_enable p s).2 = some e) :
    rt8555_bl_update_status p b s = ((rt8555_bl_enable p s).1, some e) ∧
    (rt8555_bl_update_status p b s).1.regs.iled1Lsb = s.regs.iled1Lsb ∧
    (rt8555_bl_update_status p b s).1.regs.iled1Msb = s.regs.iled1Msb := by
  have hdis : rt8555_bl_is_disabled s = true := (is_disabled_iff s).2 hg
  have hpair : rt8555_bl_enable p s = ((rt8555_bl_enable p s).1, some e) := by
    rw [← he]
  have hmain : rt8555_bl_update_status p b s = ((rt8555_bl_enable p s).1, some e) := by
    rw [rt8555_bl_update_status]
    simp only [hb, hg, hdis, Option.isSome_some, ne_eq, not_false_iff, and_self, if_true,
               reduceIte]
    rw [hpair]
  refine ⟨hmain, ?_, ?_⟩
  · rw [hmain]
    exact (enable_preserves_iled p s).1
  · rw [hmain]
    exact (enable_preserves_iled p s).2

/-- C6: get_brightness returns 0 immediately with zero bus transactions
(the state, including trace and fault schedule, is untouched) whenever
the controller is disabled; otherwise it performs an ordered two-register
read (LSB 0x04 then MSB 0x05) and returns lsb ||| (msb <<< 8), and a bus
read failure is surfaced as an error, not as a brightness value. -/
theorem claim_C6_get_brightness (s : Sys) :
    (rt8555_bl_is_disabled s = true → rt8555_bl_get_brightness s = (s, Except.ok 0)) ∧
    (rt8555_bl_is_disabled s = false → s.faults = [] →
      rt8555_bl_get_brightness s =
        ({ s with trace := s.trace ++ [Event.regRead RT8555_REG_ILED1_LSB,
                                       Event.regRead RT8555_REG_ILED1_MSB] },
         Except.ok (s.regs.iled1Lsb ||| (s.regs.iled1Msb <<< 8)))) ∧
    (∀ (e : Int) (rest : List (Option Int)), rt8555_bl_is_disabled s = false →
      s.faults = some e :: rest →
      rt8555_bl_get_brightness s = ({ s with faults := rest }, Except.error e)) :=
  ⟨get_brightness_disabled s, get_brightness_enabled_ok s,
   fun e rest hd hf => get_brightness_enabled_fault s e rest hd hf⟩

/-- C7: set_brightness writes the value as two bytes, level &&& 0xFF to
LSB register 0x04 before level >>> 8 to MSB register 0x05 (exact ordered
trace); and in the section-8 scenario (config
max=1023/default=512/pwm_dim_mode=false/change_duty=3/driver_headroom=0/
current_limit=0x92, construction runs enable with the line driven
active), set_brightness(512) leaves 0x04 = 0x00, 0x05 = 0x02, enable
line active. -/
theorem claim_C7_two_byte_write :
    (∀ (p : Priv) (b : Nat) (s : Sys), b ≠ 0 → rt8555_bl_is_disabled s = false →
      s.faults = [] →
      (rt8555_bl_update_status p b s).1.trace =
        s.trace ++ [Event.regWrite RT8555_REG_ILED1_LSB (b &&& 0xFF),
                    Event.regWrite RT8555_REG_ILED1_MSB ((b >>> 8) &&& 0xFF)]) ∧
    ((rt8555_bl_update_status ⟨3, 0, 0x92, false⟩ 512
        ((rt8555_bl_enable ⟨3, 0, 0x92, false⟩
          ⟨⟨0, 0, 0, 0, 0, 0⟩, some true, [], []⟩).1)).1.regs.iled1Lsb = 0x00 ∧
     (rt8555_bl_update_status ⟨3, 0, 0x92, false⟩ 512
        ((rt8555_bl_enable ⟨3, 0, 0x92, false⟩
          ⟨⟨0, 0, 0, 0, 0, 0⟩, some true, [], []⟩).1)).1.regs.iled1Msb = 0x02 ∧
     (rt8555_bl_update_status ⟨3, 0, 0x92, false⟩ 512
        ((rt8555_bl_enable ⟨3, 0, 0x92, false⟩
          ⟨⟨0, 0, 0, 0, 0, 0⟩, some true, [], []⟩).1)).1.gpio = some true) := by
  constructor
  · intro p b s hb hd hf
    rw [update_status_pos_enabled p b s hb hd hf]
  · refine ⟨by decide, by decide, by decide⟩

/-- C8: the probe-time configuration satisfies the clamp law for every
input: change_duty and driver_headroom land in [0, 3] (7 becomes 3, -1
becomes 0), max_brightness is clamped to 1023 (5000 becomes 1023),
default_brightness is clamped to max_brightness; the computation is
total, so construction never fails for range reasons. -/
theorem claim_C8_clamp_law (pr : ProbeProps) :
    (rt8555_bl_probe_config pr).2.change_duty ≤ 3 ∧
    (rt8555_bl_probe_config pr).2.driver_headroom ≤ 3 ∧
    (rt8555_bl_probe_config pr).1.max_brightness ≤ RT8555_MAX_BRIGHTNESS ∧
    (rt8555_bl_probe_config pr).1.brightness ≤ (rt8555_bl_probe_config pr).1.max_brightness ∧
    (pr.driver_headroom = some 7 → (rt8555_bl_probe_config pr).2.driver_headroom = 3) ∧
    (pr.change_duty = some (-1) → (rt8555_bl_probe_config pr).2.change_duty = 0) ∧
    (pr.max_brightness = some 5000 → (rt8555_bl_probe_config pr).1.max_brightness = 1023) := by
  simp only [rt8555_bl_probe_config, clampInt, RT8555_MAX_BRIGHTNESS]
  refine ⟨?_, ?_, ?_, ?_, ?_, ?_, ?_⟩
  · rcases pr.change_duty with _ | cd
    all_goals simp [min_def, max_def]
    all_goals split_ifs
    all_goals omega
  · rcases pr.driver_headroom with _ | hr
    all_goals simp [min_def, max_def]
    all_goals split_ifs
    all_goals omega
  · rcases pr.max_brightness with _ | mb
    all_goals simp [min_def]
    all_goals split_ifs
    all_goals omega
  · rcases pr.default_brightness with _ | db
    all_goals simp [min_def]
    all_goals split_ifs
    all_goals omega
  · intro h
    simp [h, min_def, max_def]
  · intro h
    simp [h, min_def, max_def]
  · intro h
    simp [h, min_def]

/-- C9: the enable sequence is idempotent over a faithful (fault-free)
register model: for every configuration and every initial register map,
running enable twice leaves exactly the register contents of running it
once. -/
theorem claim_C9_enable_idempotent (p : Priv) (s : Sys) (hf : s.faults = []) :
    (rt8555_bl_enable p (rt8555_bl_enable p s).1).1.regs = (rt8555_bl_enable p s).1.regs := by
  have h1 := rt8555_bl_enable_ok p s hf
  have hf1 : (rt8555_bl_enable p s).1.faults = [] := by
    rw [h1]
  have h2 := rt8555_bl_enable_ok p (rt8555_bl_enable p s).1 hf1
  rw [h2]
  rw [h1]
  simp only
  cases hp : p.pwm_dim_mode <;> simp only [hp, Bool.false_eq_true, if_false, if_true]
  · congr 1
    · rw [cfg0_chain_false, cfg0_chain_false, chain_false_absorb]
    · rw [upd_bit7_set, upd_bit7_set, cfg1_absorb]
    · rw [upd_duty, upd_duty, cfg8_absorb]
  · congr 1
    · rw [cfg0_chain_true, cfg0_chain_true, chain_true_absorb]
    · rw [upd_bit7_set, upd_bit7_set, cfg1_absorb]
    · rw [upd_duty, upd_duty, cfg8_absorb]

/-- C10: get_brightness neither masks the MSB byte to its two meaningful
bits nor clamps to max_brightness: with ILED1_LSB = 0xFF and
ILED1_MSB = 0xFF (bits 2-7 set) on an enabled controller it returns
65535 > 1023. -/
theorem claim_C10_no_mask_no_clamp :
    (rt8555_bl_get_brightness ⟨⟨0, 0, 0, 0xFF, 0xFF, 0⟩, some true, [], []⟩).2 =
      Except.ok 65535 ∧ RT8555_MAX_BRIGHTNESS < 65535 := ⟨rfl, by decide⟩

/-! ### Concrete witnesses -/

/-- Witness for C2 at level 512 from a disabled controller. -/
theorem claim_C2_roundtrip_witness :
    (rt8555_bl_get_brightness (rt8555_bl_update_status ⟨3, 0, 0x92, false⟩ 512
        ⟨⟨0, 0, 0, 0, 0, 0⟩, some false, [], []⟩).1).2 = Except.ok 512 :=
  (claim_C2_roundtrip ⟨3, 0, 0x92, false⟩ 512 ⟨⟨0, 0, 0, 0, 0, 0⟩, some false, [], []⟩
    rfl (by decide)).1 (by decide)

/-- Witness for C3: the refinement at a concrete state, mask preservation
at mask 12, and the abort behaviour with a fault at step 2. -/
theorem claim_C3_enable_sequence_witness :
    rt8555_bl_enable ⟨3, 0, 0x92, false⟩ ⟨⟨0, 0, 0, 0, 0, 0⟩, some true, [], []⟩ =
      runSpecSteps (enableGpioPhase ⟨⟨0, 0, 0, 0, 0, 0⟩, some true, [], []⟩)
        (enableSpecSteps ⟨3, 0, 0x92, false⟩) ∧
    upd 12 7 0xFF &&& (255 ^^^ 12) = 0xFF &&& (255 ^^^ 12) ∧
    (rt8555_bl_enable ⟨3, 0, 0x92, false⟩
      ⟨⟨0, 0, 0, 0, 0, 0⟩, some true, [none, none, some (-7)], []⟩).2 = some (-7) :=
  ⟨claim_C3_enable_sequence.1 ⟨3, 0, 0x92, false⟩ ⟨⟨0, 0, 0, 0, 0, 0⟩, some true, [], []⟩,
   claim_C3_enable_sequence.2.1 12 7 0xFF (by decide),
   claim_C3_enable_sequence.2.2 ⟨3, 0, 0x92, false⟩
     ⟨⟨0, 0, 0, 0, 0, 0⟩, some true, [none, none, some (-7)], []⟩ 2 (-7) [] (by decide) rfl⟩

/-- Witness for C4: set_brightness(0) on an enabled controller records the
two brightness writes strictly before the gpio-inactive event. -/
theorem claim_C4_gpio_ordering_witness :
    (rt8555_bl_update_status ⟨3, 0, 0x92, false⟩ 0
        ⟨⟨0, 0, 0, 7, 9, 0⟩, some true, [], []⟩).1.trace =
      [Event.regWrite RT8555_REG_ILED1_LSB 0, Event.regWrite RT8555_REG_ILED1_MSB 0,
       Event.gpioSet false] := by
  have h := claim_C4_gpio_ordering.1 ⟨3, 0, 0x92, false⟩
      ⟨⟨0, 0, 0, 7, 9, 0⟩, some true, [], []⟩ true rfl rfl
  simpa using h

/-- Witness for C5: enable failing at its first step with error -3 makes
set_brightness(77) return -3 with the brightness registers untouched. -/
theorem claim_C5_enable_error_aborts_witness :
    rt8555_bl_update_status ⟨3, 0, 0x92, false⟩ 77
        ⟨⟨0, 0, 0, 7, 9, 0⟩, some false, [some (-3)], []⟩ =
      ((rt8555_bl_enable ⟨3, 0, 0x92, false⟩
          ⟨⟨0, 0, 0, 7, 9, 0⟩, some false, [some (-3)], []⟩).1, some (-3)) ∧
    (rt8555_bl_update_status ⟨3, 0, 0x92, false⟩ 77
        ⟨⟨0, 0, 0, 7, 9, 0⟩, some false, [some (-3)], []⟩).1.regs.iled1Lsb = 7 ∧
    (rt8555_bl_update_status ⟨3, 0, 0x92, false⟩ 77
        ⟨⟨0, 0, 0, 7, 9, 0⟩, some false, [some (-3)], []⟩).1.regs.iled1Msb = 9 :=
  claim_C5_enable_error_aborts ⟨3, 0, 0x92, false⟩ 77
    ⟨⟨0, 0, 0, 7, 9, 0⟩, some false, [some (-3)], []⟩ (-3) (by decide) rfl (by decide)

/-- Witness for C6: a disabled controller returns 0 with the state (trace
and fault schedule included) untouched. -/
theorem claim_C6_get_brightness_witness :
    rt8555_bl_get_brightness ⟨⟨0, 0, 0, 7, 9, 0⟩, some false, [], []⟩ =
      (⟨⟨0, 0, 0, 7, 9, 0⟩, some false, [], []⟩, Except.ok 0) :=
  (claim_C6_get_brightness ⟨⟨0, 0, 0, 7, 9, 0⟩, some false, [], []⟩).1 (by decide)

/-- Witness for C7: set_brightness(300) records 300 &&& 0xFF = 44 to the
LSB register before 300 >>> 8 = 1 to the MSB register. -/
theorem claim_C7_two_byte_write_witness :
    (rt8555_bl_update_status ⟨3, 0, 0x92, false⟩ 300
        ⟨⟨0, 0, 0, 0, 0, 0⟩, some true, [], []⟩).1.trace =
      [Event.regWrite RT8555_REG_ILED1_LSB 44, Event.regWrite RT8555_REG_ILED1_MSB 1] :=
  (claim_C7_two_byte_write.1 ⟨3, 0, 0x92, false⟩ 300
      ⟨⟨0, 0, 0, 0, 0, 0⟩, some true, [], []⟩ (by decide) (by decide) rfl).trans (by decide)

/-- Witness for C8 at the spec's example inputs: driver_headroom 7 clamps
to 3, change_duty -1 clamps to 0, max-brightness 5000 clamps to 1023. -/
theorem claim_C8_clamp_law_witness :
    (rt8555_bl_probe_config ⟨some 5000, none, false, some (-1), some 7, none⟩).2.driver_headroom
        = 3 ∧
    (rt8555_bl_probe_config ⟨some 5000, none, false, some (-1), some 7, none⟩).2.change_duty
        = 0 ∧
    (rt8555_bl_probe_config ⟨some 5000, none, false, some (-1), some 7, none⟩).1.max_brightness
        = 1023 :=
  ⟨(claim_C8_clamp_law ⟨some 5000, none, false, some (-1), some 7, none⟩).2.2.2.2.1 rfl,
   (claim_C8_clamp_law ⟨some 5000, none, false, some (-1), some 7, none⟩).2.2.2.2.2.1 rfl,
   (claim_C8_clamp_law ⟨some 5000, none, false, some (-1), some 7, none⟩).2.2.2.2.2.2 rfl⟩

/-- Witness for C9 at a concrete non-trivial initial register map. -/
theorem claim_C9_enable_idempotent_witness :
    (rt8555_bl_enable ⟨3, 0, 0x92, false⟩ (rt8555_bl_enable ⟨3, 0, 0x92, false⟩
        ⟨⟨0x55, 0x55, 0x55, 7, 9, 0x55⟩, some true, [], []⟩).1).1.regs =
      (rt8555_bl_enable ⟨3, 0, 0x92, false⟩
        ⟨⟨0x55, 0x55, 0x55, 7, 9, 0x55⟩, some true, [], []⟩).1.regs :=
  claim_C9_enable_idempotent ⟨3, 0, 0x92, false⟩
    ⟨⟨0x55, 0x55, 0x55, 7, 9, 0x55⟩, some true, [], []⟩ rfl

end RT8555
